import Mathlib

/-!
Verification of the imlib2 JPEG XL loader (`imlib2-jxl.c`) against its
natural-language specification.

The C source is shallowly embedded: machine integers become `Nat`/`Int`
(`uint32_t` values stay below `2 ^ 32` by construction), `double`/`float`
arithmetic is modelled exactly over `ℚ` (the claims under test are decided
by margins vastly larger than any IEEE rounding error), the libjxl /
liblcms2 event-driven APIs become explicit event lists and oracle records,
and fallible C control flow becomes `Option` / explicit status values.
-/

namespace ImlibJxl

/-! ## imlib2 pixel macros (Imlib2_Loader.h)

imlib2 represents a pixel as one 32-bit word, alpha in the most
significant byte: `PIXEL_ARGB(a,r,g,b) = a<<24 | r<<16 | g<<8 | b`,
with the matching per-byte extractors. -/

def PIXEL_ARGB (a r g b : Nat) : Nat :=
  (a <<< 24) ||| (r <<< 16) ||| (g <<< 8) ||| b

def PIXEL_A (p : Nat) : Nat := (p >>> 24) &&& 0xff

def PIXEL_R (p : Nat) : Nat := (p >>> 16) &&& 0xff

def PIXEL_G (p : Nat) : Nat := (p >>> 8) &&& 0xff

def PIXEL_B (p : Nat) : Nat := p &&& 0xff

/-! ## PixelFormatAdapter, decode direction (`load`, imlib2-jxl.c:500-520)

`target` is the raw byte buffer produced by libjxl (interleaved channels,
`uint8_t` so every byte is `< 256`); the loop writes `im->data[i]`.
The `if / else if / else` chain on `pixel_format.num_channels` is mirrored
exactly. -/

def decodePixel (num_channels : Nat) (target : Nat → Nat) (i : Nat) : Nat :=
  if num_channels = 4 then
    PIXEL_ARGB (target (4*i+3)) (target (4*i+0)) (target (4*i+1)) (target (4*i+2))
  else if num_channels = 3 then
    PIXEL_ARGB 255 (target (3*i+0)) (target (3*i+1)) (target (3*i+2))
  else if num_channels = 2 then
    PIXEL_ARGB (target (2*i+1)) (target (2*i)) (target (2*i)) (target (2*i))
  else
    PIXEL_ARGB 255 (target i) (target i) (target i)

/-! ## PixelFormatAdapter, encode direction (`save`, imlib2-jxl.c:659-679)

`im->data` is read as 32-bit ARGB words; the output is a flat byte buffer,
3 bytes per pixel without alpha, 4 bytes per pixel with alpha.  We model
the output buffer as a function from byte index to byte value: byte
`i*3+k` (resp. `i*4+k`) of the output is channel `k` of pixel `i`. -/

def encodeByte3 (impixel : Nat → Nat) (j : Nat) : Nat :=
  let pixel := impixel (j / 3)
  if j % 3 = 0 then PIXEL_R pixel
  else if j % 3 = 1 then PIXEL_G pixel
  else PIXEL_B pixel

def encodeByte4 (impixel : Nat → Nat) (j : Nat) : Nat :=
  let pixel := impixel (j / 4)
  if j % 4 = 0 then PIXEL_R pixel
  else if j % 4 = 1 then PIXEL_G pixel
  else if j % 4 = 2 then PIXEL_B pixel
  else PIXEL_A pixel

/-! ## ParameterMapper (`save`, imlib2-jxl.c:592-632)

The "quality" tag is clamped to `[0, 99]`; 99 enables lossless mode,
otherwise the Butteraugli distance `15 - quality*15/99.0f` is set.
The "compression" tag is clamped to `[1, 9]` and passed as the encoder
effort option.  The C `float` arithmetic is modelled exactly over `ℚ`. -/

def clampQuality (val : Int) : Int :=
  if val < 0 then 0 else if val > 99 then 99 else val

structure QualityConfig where
  lossless : Bool
  distance : Option ℚ
deriving DecidableEq

def mapQuality (val : Int) : QualityConfig :=
  let quality := clampQuality val
  if quality = 99 then
    { lossless := true, distance := none }
  else
    { lossless := false, distance := some (15 - ((quality * 15 : Int) : ℚ) / 99) }

def compressionEffort (val : Int) : Int :=
  if val < 1 then 1 else if val > 9 then 9 else val

/-! ## ColorProfileClassifier (`near_equal`, imlib2-jxl.c:268-276, and the
condition at imlib2-jxl.c:378-411)

The libjxl descriptor `JxlColorEncoding` is embedded with its enum tags and
its chromaticity fields (C `double[2]` arrays become `Nat → ℚ`).  The
reference profile is the one produced by `JxlColorEncodingSetToSRGB`:
tagged sRGB primaries / D65 white point / sRGB transfer function, with the
IEC 61966-2-1 chromaticities in the numeric fields. -/

inductive JxlColorSpace where
  | RGB | Gray | XYB | Unknown
deriving DecidableEq

inductive JxlWhitePoint where
  | D65 | Custom | E | DCI
deriving DecidableEq

inductive JxlPrimaries where
  | SRGB | Custom | BT2100 | P3
deriving DecidableEq

inductive JxlTransferFunction where
  | BT709 | Unknown | Linear | SRGB | PQ | DCI | HLG | Gamma
deriving DecidableEq

structure JxlColorEncoding where
  color_space : JxlColorSpace
  white_point : JxlWhitePoint
  white_point_xy : Nat → ℚ
  primaries : JxlPrimaries
  primaries_red_xy : Nat → ℚ
  primaries_green_xy : Nat → ℚ
  primaries_blue_xy : Nat → ℚ
  transfer_function : JxlTransferFunction

def jxlSRGB (is_gray : Bool) : JxlColorEncoding where
  color_space := if is_gray then JxlColorSpace.Gray else JxlColorSpace.RGB
  white_point := JxlWhitePoint.D65
  white_point_xy := fun i => if i = 0 then 0.3127 else 0.3290
  primaries := JxlPrimaries.SRGB
  primaries_red_xy := fun i => if i = 0 then 0.639998686 else 0.330010138
  primaries_green_xy := fun i => if i = 0 then 0.300003784 else 0.600003357
  primaries_blue_xy := fun i => if i = 0 then 0.150002046 else 0.059997204
  transfer_function := JxlTransferFunction.SRGB

/-- `near_equal` (imlib2-jxl.c:268-276): true iff no component differs by
`≥ 2e-5`. -/
def near_equal (length : Nat) (v1 v2 : Nat → ℚ) : Bool :=
  (List.range length).all fun i => decide (|v1 i - v2 i| < 0.00002)

/-- The condition at imlib2-jxl.c:381-403 deciding that the encoded profile
is (nearly) sRGB so that no ICC conversion is needed.  `srgb` is the
reference built by `JxlColorEncodingSetToSRGB`. -/
def encodedProfileIsSRGB (srgb color_enc : JxlColorEncoding) : Bool :=
  (decide (color_enc.color_space = JxlColorSpace.RGB) ||
   decide (color_enc.color_space = JxlColorSpace.Gray))
  &&
  decide (color_enc.transfer_function = JxlTransferFunction.SRGB)
  &&
  (decide (color_enc.color_space = JxlColorSpace.Gray) ||
    (decide (color_enc.primaries = JxlPrimaries.SRGB) ||
      (decide (color_enc.primaries = JxlPrimaries.Custom) &&
        near_equal 2 color_enc.primaries_red_xy srgb.primaries_red_xy &&
        near_equal 2 color_enc.primaries_green_xy srgb.primaries_green_xy &&
        near_equal 2 color_enc.primaries_blue_xy srgb.primaries_blue_xy)))
  &&
  (decide (color_enc.white_point = JxlWhitePoint.D65) ||
    (decide (color_enc.white_point = JxlWhitePoint.Custom) &&
      near_equal 2 color_enc.white_point_xy srgb.white_point_xy))

/-- Modelled from the spec (refinement side of C4): the claim's equivalence
conditions stated in the spec's words, with "within absolute tolerance
2e-5 per component" read as the code's strict comparison. -/
def specProfileEquivalent (ref ce : JxlColorEncoding) : Prop :=
  (ce.color_space = JxlColorSpace.RGB ∨ ce.color_space = JxlColorSpace.Gray) ∧
  ce.transfer_function = JxlTransferFunction.SRGB ∧
  (ce.color_space = JxlColorSpace.RGB →
    (ce.primaries = JxlPrimaries.SRGB ∨
      (ce.primaries = JxlPrimaries.Custom ∧
        (∀ i < 2, |ce.primaries_red_xy i - ref.primaries_red_xy i| < 0.00002) ∧
        (∀ i < 2, |ce.primaries_green_xy i - ref.primaries_green_xy i| < 0.00002) ∧
        (∀ i < 2, |ce.primaries_blue_xy i - ref.primaries_blue_xy i| < 0.00002)))) ∧
  (ce.white_point = JxlWhitePoint.D65 ∨
    (ce.white_point = JxlWhitePoint.Custom ∧
      (∀ i < 2, |ce.white_point_xy i - ref.white_point_xy i| < 0.00002)))

/-- Test profile for C4: the sRGB reference reshaped to carry custom
primaries, with the red x chromaticity offset by `d` and every other value
equal to the reference. -/
def perturbedProfile (d : ℚ) : JxlColorEncoding :=
  { jxlSRGB false with
    primaries := JxlPrimaries.Custom
    primaries_red_xy := fun i => if i = 0 then 0.639998686 + d else 0.330010138 }

/-! ## ColorTransformEngine (`convert_to_srgb`, imlib2-jxl.c:168-257)

The liblcms2 calls are oracles: a `CmsOracle` records whether each library
call of one decode succeeds and what pixel words a successful transform
writes (word-ordered ARGB, as the output format `TYPE_ARGB_8`/`TYPE_BGRA_8`
is chosen to produce).  `convert_to_srgb` mirrors the C control flow:
any failing step makes the function return nonzero, modelled as `none`. -/

structure CmsOracle where
  createContext : Bool
  openProfileFromMem : List Nat → Bool
  createSRGBProfile : Bool
  createTransform : Bool
  doTransform : (Nat → Nat) → Nat → Nat

def convert_to_srgb (o : CmsOracle) (input_icc_blob : List Nat)
    (px_in : Nat → Nat) (num_channels : Nat) : Option (Nat → Nat) :=
  if !o.createContext then none
  else if !o.openProfileFromMem input_icc_blob then none
  else if !o.createSRGBProfile then none
  else if !(num_channels = 3 || num_channels = 4 ||
            num_channels = 1 || num_channels = 2) then none
  else if !o.createTransform then none
  else some (o.doTransform px_in)

/-! ## CodecEventLoop, decode (`load`, imlib2-jxl.c:281-539)

`JxlDecoderProcessInput` results become a list of events; data the codec
hands back (basic info, encoded profile, ICC blob, decoded pixel bytes)
rides on the events.  `mallocs` that the claims do not probe are modelled
as succeeding; whether the raw pixel buffer (`target`) was allocated, and
whether a `JXL_DEC_NEED_IMAGE_OUT_BUFFER` event was ever processed, are
tracked explicitly.  `IMAGE_DIMENSIONS_OK` is imlib2's macro and is kept
abstract as the `dimsOk` parameter. -/

structure JxlBasicInfo where
  xsize : Nat
  ysize : Nat
  alpha_bits : Nat
  num_color_channels : Nat

inductive JxlDecEvent where
  /-- `JXL_DEC_BASIC_INFO`; `getOk` is the result of `JxlDecoderGetBasicInfo`. -/
  | basicInfo (getOk : Bool) (info : JxlBasicInfo)
  /-- `JXL_DEC_COLOR_ENCODING`; `encoded` is the structured profile when
  `JxlDecoderGetColorAsEncodedProfile` succeeds; `icc` is the ICC blob when
  the size/fetch two-step succeeds. -/
  | colorEncoding (encoded : Option JxlColorEncoding) (icc : Option (List Nat))
  /-- `JXL_DEC_NEED_IMAGE_OUT_BUFFER`; `reportedSize` is the codec-reported
  buffer size (`none` = query fails); `contents` are the bytes the codec
  will put into the buffer. -/
  | needImageOutBuffer (reportedSize : Option Nat) (contents : Nat → Nat)
  | needMoreInput
  | decodeError
  | fullImage
  | otherEvent

/-- imlib2-jxl.c:345: channel count derived from basic info. -/
def decNumChannels (num_color_channels alpha_bits : Nat) : Nat :=
  (if num_color_channels ≥ 3 then 3 else 1) + (if alpha_bits > 0 then 1 else 0)

inductive LoadStatus where
  | success | fail | badimage | oom
deriving DecidableEq

structure LoadState where
  w : Nat := 0
  h : Nat := 0
  has_alpha : Bool := false
  num_pixels : Nat := 0
  num_color_channels : Nat := 0
  num_channels : Nat := 4
  icc : Option (List Nat) := none
  target : Option (Nat → Nat) := none
  processedOutBufferEvent : Bool := false

structure LoadOutcome where
  status : LoadStatus
  w : Nat
  h : Nat
  has_alpha : Bool
  /-- `im->data` as pixel-index → ARGB word; `none` if never allocated. -/
  data : Option (Nat → Nat)
  /-- whether the raw pixel buffer (`target`) was ever allocated. -/
  targetAllocated : Bool
  /-- whether a `JXL_DEC_NEED_IMAGE_OUT_BUFFER` event was processed. -/
  processedOutBufferEvent : Bool

def failOutcome (s : LoadStatus) (st : LoadState) : LoadOutcome where
  status := s
  w := st.w
  h := st.h
  has_alpha := st.has_alpha
  data := none
  targetAllocated := st.target.isSome
  processedOutBufferEvent := st.processedOutBufferEvent

/-- The code after the event loop (imlib2-jxl.c:471-526): allocate
`im->data`, try the ICC transform when a profile was retained, and fall
back to the plain channel reordering when there is none or it fails. -/
def loadFinish (o : CmsOracle) (st : LoadState) : LoadOutcome :=
  let tgt := st.target.getD (fun _ => 0)
  let plain := fun i => decodePixel st.num_channels tgt i
  let data :=
    match st.icc with
    | some blob =>
      match convert_to_srgb o blob tgt st.num_channels with
      | some out => out
      | none => plain
    | none => plain
  { status := LoadStatus.success
    w := st.w
    h := st.h
    has_alpha := st.has_alpha
    data := some data
    targetAllocated := st.target.isSome
    processedOutBufferEvent := st.processedOutBufferEvent }

def loadLoop (o : CmsOracle) (dimsOk : Nat → Nat → Bool) (load_data : Bool) :
    List JxlDecEvent → LoadState → LoadOutcome
  | [], st => failOutcome LoadStatus.fail st
  | ev :: rest, st =>
    match ev with
    | JxlDecEvent.fullImage => loadFinish o st
    | JxlDecEvent.basicInfo getOk info =>
      if !getOk then failOutcome LoadStatus.badimage st
      else if !dimsOk info.xsize info.ysize then failOutcome LoadStatus.badimage st
      else
        let st2 : LoadState :=
          { st with
            w := info.xsize
            h := info.ysize
            num_pixels := info.xsize * info.ysize
            has_alpha := decide (info.alpha_bits > 0)
            num_color_channels := info.num_color_channels
            num_channels := decNumChannels info.num_color_channels info.alpha_bits }
        if !load_data then
          { status := LoadStatus.success
            w := st2.w
            h := st2.h
            has_alpha := st2.has_alpha
            data := none
            targetAllocated := st2.target.isSome
            processedOutBufferEvent := st2.processedOutBufferEvent }
        else loadLoop o dimsOk load_data rest st2
    | JxlDecEvent.colorEncoding encoded icc =>
      let srgb := jxlSRGB (decide (st.num_color_channels = 1))
      let skip :=
        match encoded with
        | some ce => encodedProfileIsSRGB srgb ce
        | none => false
      if skip then loadLoop o dimsOk load_data rest st
      else
        match icc with
        | some blob => loadLoop o dimsOk load_data rest { st with icc := some blob }
        | none => loadLoop o dimsOk load_data rest st
    | JxlDecEvent.needImageOutBuffer reportedSize contents =>
      let st2 := { st with processedOutBufferEvent := true }
      match reportedSize with
      | none => failOutcome LoadStatus.fail st2
      | some sz =>
        if sz ≠ st2.w * st2.h * st2.num_channels then failOutcome LoadStatus.fail st2
        else loadLoop o dimsOk load_data rest { st2 with target := some contents }
    | JxlDecEvent.needMoreInput => failOutcome LoadStatus.badimage st
    | JxlDecEvent.decodeError => failOutcome LoadStatus.badimage st
    | JxlDecEvent.otherEvent => failOutcome LoadStatus.fail st

def load (o : CmsOracle) (dimsOk : Nat → Nat → Bool) (load_data : Bool)
    (events : List JxlDecEvent) : LoadOutcome :=
  loadLoop o dimsOk load_data events {}

/-- Event classifier used to describe decoder traces whose events before
basic info are color-encoding reports. -/
def JxlDecEvent.isColorEncoding : JxlDecEvent → Bool
  | JxlDecEvent.colorEncoding _ _ => true
  | _ => false

/-- A liblcms2 oracle on which every call succeeds. -/
def trivialCms : CmsOracle where
  createContext := true
  openProfileFromMem := fun _ => true
  createSRGBProfile := true
  createTransform := true
  doTransform := fun px => px

/-- A liblcms2 oracle on which transform construction fails. -/
def failingCms : CmsOracle where
  createContext := true
  openProfileFromMem := fun _ => true
  createSRGBProfile := true
  createTransform := false
  doTransform := fun px => px

/-! ## CodecEncodeLoop output drain (`save`, imlib2-jxl.c:698-724)

Each call to `JxlEncoderProcessOutput` starts with the output cursor at the
buffer start (it is reset after every flush), so one call is modelled as a
step carrying the returned status, the number of bytes written
(`jxl_bytes_size - avail_out`, equivalently how far `next_out` advanced
from `jxl_bytes`), and whether the `fwrite` flushing those bytes
succeeds. -/

inductive JxlEncStatus where
  | encSuccess | needMoreOutput | encError
deriving DecidableEq

structure EncStep where
  status : JxlEncStatus
  written : Nat
  writeOk : Bool

inductive SaveResult where
  /-- Encoding finished; the byte counts flushed to the sink, in order. -/
  | ok (chunks : List Nat)
  /-- "Encoding stalled". -/
  | stalled
  /-- "Error during encoding". -/
  | encodeFailed
  /-- "Failed to write ... B". -/
  | writeFailed
  /-- Model artifact: the step list ran out before `JXL_ENC_SUCCESS`. -/
  | truncatedModel
deriving DecidableEq

def encodeOutputLoop : List EncStep → SaveResult
  | [] => SaveResult.truncatedModel
  | step :: rest =>
    match step.status with
    | JxlEncStatus.encSuccess =>
      if step.writeOk then SaveResult.ok [step.written] else SaveResult.writeFailed
    | JxlEncStatus.needMoreOutput =>
      if step.written = 0 then SaveResult.stalled
      else if !step.writeOk then SaveResult.writeFailed
      else
        match encodeOutputLoop rest with
        | SaveResult.ok chunks => SaveResult.ok (step.written :: chunks)
        | r => r
    | JxlEncStatus.encError => SaveResult.encodeFailed

/-! ### Packing / extraction lemmas -/

theorem pixel_argb_eq_sum (a r g b : Nat) (hr : r < 256) (hg : g < 256) (hb : b < 256) :
    PIXEL_ARGB a r g b = a * 2^24 + r * 2^16 + g * 2^8 + b := by
  unfold PIXEL_ARGB
  have h1 : (g <<< 8) ||| b = g * 2^8 + b := by
    rw [Nat.shiftLeft_eq, Nat.mul_comm g (2^8), Nat.mul_add_lt_is_or hb]
  have hgb : g * 2^8 + b < 2^16 := by omega
  have h2 : (r <<< 16) ||| (g * 2^8 + b) = r * 2^16 + (g * 2^8 + b) := by
    rw [Nat.shiftLeft_eq, Nat.mul_comm r (2^16), Nat.mul_add_lt_is_or hgb]
  have hrgb : r * 2^16 + (g * 2^8 + b) < 2^24 := by omega
  have h3 : (a <<< 24) ||| (r * 2^16 + (g * 2^8 + b)) =
      a * 2^24 + (r * 2^16 + (g * 2^8 + b)) := by
    rw [Nat.shiftLeft_eq, Nat.mul_comm a (2^24), Nat.mul_add_lt_is_or hrgb]
  rw [Nat.or_assoc, Nat.or_assoc, h1, h2, h3]
  omega

theorem PIXEL_A_eq (p : Nat) : PIXEL_A p = p / 2^24 % 2^8 := by
  unfold PIXEL_A
  rw [Nat.shiftRight_eq_div_pow]
  have : (0xff : Nat) = 2^8 - 1 := by norm_num
  rw [this, Nat.and_pow_two_sub_one_eq_mod]

theorem PIXEL_R_eq (p : Nat) : PIXEL_R p = p / 2^16 % 2^8 := by
  unfold PIXEL_R
  rw [Nat.shiftRight_eq_div_pow]
  have : (0xff : Nat) = 2^8 - 1 := by norm_num
  rw [this, Nat.and_pow_two_sub_one_eq_mod]

theorem PIXEL_G_eq (p : Nat) : PIXEL_G p = p / 2^8 % 2^8 := by
  unfold PIXEL_G
  rw [Nat.shiftRight_eq_div_pow]
  have : (0xff : Nat) = 2^8 - 1 := by norm_num
  rw [this, Nat.and_pow_two_sub_one_eq_mod]

theorem PIXEL_B_eq (p : Nat) : PIXEL_B p = p % 2^8 := by
  unfold PIXEL_B
  have : (0xff : Nat) = 2^8 - 1 := by norm_num
  rw [this, Nat.and_pow_two_sub_one_eq_mod]

theorem pixel_extract (a r g b : Nat) (ha : a < 256) (hr : r < 256)
    (hg : g < 256) (hb : b < 256) :
    PIXEL_A (PIXEL_ARGB a r g b) = a ∧
    PIXEL_R (PIXEL_ARGB a r g b) = r ∧
    PIXEL_G (PIXEL_ARGB a r g b) = g ∧
    PIXEL_B (PIXEL_ARGB a r g b) = b ∧
    PIXEL_ARGB a r g b < 2^32 := by
  rw [PIXEL_A_eq, PIXEL_R_eq, PIXEL_G_eq, PIXEL_B_eq,
    pixel_argb_eq_sum a r g b hr hg hb]
  refine ⟨?_, ?_, ?_, ?_, ?_⟩ <;> omega

theorem pixel_repack (p : Nat) (hp : p < 2^32) :
    PIXEL_ARGB (PIXEL_A p) (PIXEL_R p) (PIXEL_G p) (PIXEL_B p) = p := by
  have hr : PIXEL_R p < 256 := by rw [PIXEL_R_eq]; omega
  have hg : PIXEL_G p < 256 := by rw [PIXEL_G_eq]; omega
  have hb : PIXEL_B p < 256 := by rw [PIXEL_B_eq]; omega
  rw [pixel_argb_eq_sum _ _ _ _ hr hg hb,
    PIXEL_A_eq, PIXEL_R_eq, PIXEL_G_eq, PIXEL_B_eq]
  omega

/-! ## Claim theorems -/

/-- C1: the PixelFormatAdapter decode direction produces the canonical
32-bit word per channel count: for C=4 input bytes (R,G,B,A) the output
word is (A,R,G,B) with A in the most significant byte; for C=3 (R,G,B) it
is (0xFF,R,G,B); for C=2 (gray,alpha) it is (A,gray,gray,gray); for C=1
(gray) it is (0xFF,gray,gray,gray).  `target j < 256` reflects the C
`uint8_t` buffer type. -/
theorem claim_C1_pixel_format_decode (target : Nat → Nat) (i : Nat)
    (hb : ∀ j, target j < 256) :
    (PIXEL_A (decodePixel 4 target i) = target (4*i+3) ∧
     PIXEL_R (decodePixel 4 target i) = target (4*i+0) ∧
     PIXEL_G (decodePixel 4 target i) = target (4*i+1) ∧
     PIXEL_B (decodePixel 4 target i) = target (4*i+2) ∧
     decodePixel 4 target i < 2^32) ∧
    (PIXEL_A (decodePixel 3 target i) = 0xFF ∧
     PIXEL_R (decodePixel 3 target i) = target (3*i+0) ∧
     PIXEL_G (decodePixel 3 target i) = target (3*i+1) ∧
     PIXEL_B (decodePixel 3 target i) = target (3*i+2) ∧
     decodePixel 3 target i < 2^32) ∧
    (PIXEL_A (decodePixel 2 target i) = target (2*i+1) ∧
     PIXEL_R (decodePixel 2 target i) = target (2*i) ∧
     PIXEL_G (decodePixel 2 target i) = target (2*i) ∧
     PIXEL_B (decodePixel 2 target i) = target (2*i) ∧
     decodePixel 2 target i < 2^32) ∧
    (PIXEL_A (decodePixel 1 target i) = 0xFF ∧
     PIXEL_R (decodePixel 1 target i) = target i ∧
     PIXEL_G (decodePixel 1 target i) = target i ∧
     PIXEL_B (decodePixel 1 target i) = target i ∧
     decodePixel 1 target i < 2^32) := by
  have h4 := pixel_extract (target (4*i+3)) (target (4*i+0)) (target (4*i+1))
    (target (4*i+2)) (hb _) (hb _) (hb _) (hb _)
  have h3 := pixel_extract 255 (target (3*i+0)) (target (3*i+1)) (target (3*i+2))
    (by norm_num) (hb _) (hb _) (hb _)
  have h2 := pixel_extract (target (2*i+1)) (target (2*i)) (target (2*i))
    (target (2*i)) (hb _) (hb _) (hb _) (hb _)
  have h1 := pixel_extract 255 (target i) (target i) (target i)
    (by norm_num) (hb _) (hb _) (hb _)
  refine ⟨?_, ?_, ?_, ?_⟩ <;> simp only [decodePixel] <;> norm_num
  · exact h4
  · exact h3
  · exact h2
  · exact h1

/-- Witness for C1 at concrete inputs. -/
theorem claim_C1_pixel_format_decode_witness :
    PIXEL_A (decodePixel 4 (fun j => j % 256) 0) = 3 ∧
    PIXEL_A (decodePixel 3 (fun j => j % 256) 0) = 0xFF ∧
    PIXEL_A (decodePixel 2 (fun j => j % 256) 0) = 1 ∧
    PIXEL_R (decodePixel 1 (fun j => j % 256) 0) = 0 := by
  have h := claim_C1_pixel_format_decode (fun j => j % 256) 0
    (fun j => Nat.mod_lt j (by norm_num))
  refine ⟨?_, h.2.1.1, ?_, ?_⟩
  · simpa using h.1.1
  · simpa using h.2.2.1.1
  · simpa using h.2.2.2.2.1

/-- C2: composing the PixelFormatAdapter encode direction with the decode
direction is the identity for C=4 (alpha flag true); for C=3 (alpha flag
false, alpha byte dropped) the decoded pixel equals the original except
that its alpha byte is 0xFF. -/
theorem claim_C2_adapter_roundtrip (impixel : Nat → Nat) (i : Nat)
    (hp : impixel i < 2^32) :
    decodePixel 4 (encodeByte4 impixel) i = impixel i ∧
    decodePixel 3 (encodeByte3 impixel) i % 2^24 = impixel i % 2^24 ∧
    decodePixel 3 (encodeByte3 impixel) i / 2^24 = 0xFF := by
  have hdiv : ∀ k, k < 4 → (4*i+k) / 4 = i := by
    intro k hk; omega
  have hmod : ∀ k, (4*i+k) % 4 = k % 4 := by
    intro k; omega
  have hdiv3 : ∀ k, k < 3 → (3*i+k) / 3 = i := by
    intro k hk; omega
  have hmod3 : ∀ k, (3*i+k) % 3 = k % 3 := by
    intro k; omega
  have e40 : encodeByte4 impixel (4*i+0) = PIXEL_R (impixel i) := by
    simp [encodeByte4, hdiv 0 (by norm_num), hmod 0]
  have e41 : encodeByte4 impixel (4*i+1) = PIXEL_G (impixel i) := by
    simp [encodeByte4, hdiv 1 (by norm_num), hmod 1]
  have e42 : encodeByte4 impixel (4*i+2) = PIXEL_B (impixel i) := by
    simp [encodeByte4, hdiv 2 (by norm_num), hmod 2]
  have e43 : encodeByte4 impixel (4*i+3) = PIXEL_A (impixel i) := by
    simp [encodeByte4, hdiv 3 (by norm_num), hmod 3]
  have e30 : encodeByte3 impixel (3*i+0) = PIXEL_R (impixel i) := by
    simp [encodeByte3, hdiv3 0 (by norm_num), hmod3 0]
  have e31 : encodeByte3 impixel (3*i+1) = PIXEL_G (impixel i) := by
    simp [encodeByte3, hdiv3 1 (by norm_num), hmod3 1]
  have e32 : encodeByte3 impixel (3*i+2) = PIXEL_B (impixel i) := by
    simp [encodeByte3, hdiv3 2 (by norm_num), hmod3 2]
  have hr : PIXEL_R (impixel i) < 256 := by rw [PIXEL_R_eq]; omega
  have hg : PIXEL_G (impixel i) < 256 := by rw [PIXEL_G_eq]; omega
  have hbb : PIXEL_B (impixel i) < 256 := by rw [PIXEL_B_eq]; omega
  have hd4 : decodePixel 4 (encodeByte4 impixel) i = impixel i := by
    simp only [decodePixel, reduceIte]
    rw [e43, e40, e41, e42]
    exact pixel_repack (impixel i) hp
  have hd3 : decodePixel 3 (encodeByte3 impixel) i =
      PIXEL_ARGB 255 (PIXEL_R (impixel i)) (PIXEL_G (impixel i))
        (PIXEL_B (impixel i)) := by
    simp only [decodePixel, reduceIte]
    rw [e30, e31, e32]
    norm_num
  refine ⟨hd4, ?_, ?_⟩
  · rw [hd3, pixel_argb_eq_sum _ _ _ _ hr hg hbb,
      PIXEL_R_eq, PIXEL_G_eq, PIXEL_B_eq]
    omega
  · rw [hd3, pixel_argb_eq_sum _ _ _ _ hr hg hbb,
      PIXEL_R_eq, PIXEL_G_eq, PIXEL_B_eq]
    omega

/-- Witness for C2 at a concrete pixel. -/
theorem claim_C2_adapter_roundtrip_witness :
    decodePixel 4 (encodeByte4 (fun _ => 0x12345678)) 0 = 0x12345678 ∧
    decodePixel 3 (encodeByte3 (fun _ => 0x12345678)) 0 % 2^24 = 0x345678 ∧
    decodePixel 3 (encodeByte3 (fun _ => 0x12345678)) 0 / 2^24 = 0xFF := by
  have h := claim_C2_adapter_roundtrip (fun _ => 0x12345678) 0 (by norm_num)
  exact ⟨h.1, by simpa using h.2.1, h.2.2⟩

/-- C9: the "compression" tag value is clamped to [1,9] and passed directly
as the encoder effort level; 0 clamps to 1 and 12 clamps to 9. -/
theorem claim_C9_compression_clamp (val : Int) :
    compressionEffort val = max 1 (min 9 val) ∧
    1 ≤ compressionEffort val ∧ compressionEffort val ≤ 9 ∧
    compressionEffort 0 = 1 ∧ compressionEffort 12 = 9 := by
  unfold compressionEffort
  refine ⟨?_, ?_, ?_, by norm_num, by norm_num⟩ <;>
    (split <;> [omega; (split <;> omega)])

/-- C10: the decode channel count is `(3 if num_color_channels ≥ 3 else 1)
+ (1 if alpha_bits > 0 else 0)`; hence it lies in {1,2,3,4}, any count
above 3 collapses to 3, and a count of 2 collapses to 1. -/
theorem claim_C10_channel_count (num_color_channels alpha_bits : Nat) :
    decNumChannels num_color_channels alpha_bits =
      (if num_color_channels ≥ 3 then 3 else 1) +
      (if alpha_bits > 0 then 1 else 0) ∧
    1 ≤ decNumChannels num_color_channels alpha_bits ∧
    decNumChannels num_color_channels alpha_bits ≤ 4 ∧
    decNumChannels (num_color_channels + 4) alpha_bits =
      decNumChannels 3 alpha_bits ∧
    decNumChannels 2 alpha_bits = decNumChannels 1 alpha_bits := by
  unfold decNumChannels
  refine ⟨rfl, ?_, ?_, ?_, ?_⟩ <;> (repeat' split) <;> omega

/-- Counterexample for C3 as stated: the code maps quality=50 to distance
`15 - 50*15/99 = 245/33 ≈ 7.42`, which is not ≈7.7 (it is not even within
0.1 of 7.7). -/
theorem claim_C3_counterexample :
    (mapQuality 50).distance = some (245/33 : ℚ) ∧
    ¬(|(245/33 : ℚ) - 7.7| < 1/10) := by
  constructor
  · norm_num [mapQuality, clampQuality]
  · rw [abs_sub_lt_iff]
    norm_num

/-- C3 (amended): quality is clamped to [0,99]; clamped 99 enables lossless
with no distance; otherwise distance = 15·(1 − quality/99), so quality=0
gives 15.0 and quality=50 gives 245/33 ≈ 7.42 (not ≈7.7). -/
theorem claim_C3_quality_mapping (val : Int) :
    0 ≤ clampQuality val ∧ clampQuality val ≤ 99 ∧
    mapQuality val = mapQuality (clampQuality val) ∧
    (mapQuality val).lossless = decide (clampQuality val = 99) ∧
    (mapQuality val).distance =
      (if clampQuality val = 99 then none
       else some (15 * (1 - (clampQuality val : ℚ) / 99))) ∧
    (mapQuality 0).distance = some 15 ∧
    (mapQuality 50).distance = some (245/33) ∧
    mapQuality 99 = { lossless := true, distance := none } := by
  have hcl : clampQuality (clampQuality val) = clampQuality val := by
    unfold clampQuality; repeat' split <;> omega
  have hq0 : (mapQuality 0).distance = some 15 := by
    norm_num [mapQuality, clampQuality]
  have hq50 : (mapQuality 50).distance = some (245/33) := by
    norm_num [mapQuality, clampQuality]
  have hq99 : mapQuality 99 = { lossless := true, distance := none } := by
    norm_num [mapQuality, clampQuality]
  refine ⟨?_, ?_, ?_, ?_, ?_, hq0, hq50, hq99⟩
  · unfold clampQuality; repeat' split <;> omega
  · unfold clampQuality; repeat' split <;> omega
  · unfold mapQuality; rw [hcl]
  · unfold mapQuality
    by_cases h : clampQuality val = 99 <;> simp [h]
  · unfold mapQuality
    by_cases h : clampQuality val = 99 <;> simp [h]
    ring

/-- C4: the ColorProfileClassifier accepts a structured profile iff the
color space is RGB or Gray, the transfer function is exactly sRGB, for RGB
the primaries are the sRGB tag or custom values each within 2e-5 of the
reference (Gray skips the check), and the white point is the D65 tag or a
custom value within the same tolerance; a reference profile classifies as
equivalent to itself, a 3e-5 perturbation of one primary component does
not, and a 1e-5 perturbation does. -/
theorem claim_C4_profile_classifier :
    (∀ (is_gray : Bool) (ce : JxlColorEncoding),
      encodedProfileIsSRGB (jxlSRGB is_gray) ce = true ↔
        specProfileEquivalent (jxlSRGB is_gray) ce) ∧
    encodedProfileIsSRGB (jxlSRGB false) (jxlSRGB false) = true ∧
    encodedProfileIsSRGB (jxlSRGB true) (jxlSRGB true) = true ∧
    encodedProfileIsSRGB (jxlSRGB false) (perturbedProfile 0.00003) = false ∧
    encodedProfileIsSRGB (jxlSRGB false) (perturbedProfile 0.00001) = true := by
  have hiff : ∀ (is_gray : Bool) (ce : JxlColorEncoding),
      encodedProfileIsSRGB (jxlSRGB is_gray) ce = true ↔
        specProfileEquivalent (jxlSRGB is_gray) ce := by
    intro is_gray ce
    have hne : ¬(ce.color_space = JxlColorSpace.RGB ∧
        ce.color_space = JxlColorSpace.Gray) := by
      rintro ⟨h1, h2⟩
      rw [h1] at h2
      exact JxlColorSpace.noConfusion h2
    simp only [encodedProfileIsSRGB, specProfileEquivalent, near_equal,
      Bool.and_eq_true, Bool.or_eq_true, decide_eq_true_eq,
      List.all_eq_true, List.mem_range]
    tauto
  have hF : ¬ specProfileEquivalent (jxlSRGB false) (perturbedProfile 0.00003) := by
    rintro ⟨_, _, hprim, _⟩
    rcases hprim rfl with h1 | ⟨_, hred, _, _⟩
    · exact absurd h1 (by simp [perturbedProfile])
    · have h0 := hred 0 (by norm_num)
      simp only [perturbedProfile, jxlSRGB, reduceIte, if_pos] at h0
      rw [abs_sub_lt_iff] at h0
      norm_num at h0
  refine ⟨hiff, ?_, ?_, ?_, ?_⟩
  · rw [hiff]
    simp [specProfileEquivalent, jxlSRGB]
  · rw [hiff]
    simp [specProfileEquivalent, jxlSRGB]
  · exact Bool.eq_false_iff.mpr (fun h => hF ((hiff false _).mp h))
  · rw [hiff]
    refine ⟨Or.inl rfl, rfl, fun _ => Or.inr ⟨rfl, ?_, ?_, ?_⟩, Or.inl rfl⟩ <;>
      (intro i hi
       interval_cases i <;>
         (simp only [perturbedProfile, jxlSRGB, reduceIte, if_pos]
          rw [abs_sub_lt_iff]
          norm_num))

/-- C8: during encode output draining, need-more-output with the cursor
still at the buffer start fails with "Encoding stalled"; otherwise the
buffered bytes are flushed to the sink and the loop continues. -/
theorem claim_C8_encoding_stall (step : EncStep) (rest : List EncStep)
    (hst : step.status = JxlEncStatus.needMoreOutput) :
    (step.written = 0 → encodeOutputLoop (step :: rest) = SaveResult.stalled) ∧
    (step.written ≠ 0 → step.writeOk = true →
      encodeOutputLoop (step :: rest) =
        match encodeOutputLoop rest with
        | SaveResult.ok chunks => SaveResult.ok (step.written :: chunks)
        | r => r) := by
  obtain ⟨status, written, writeOk⟩ := step
  subst hst
  constructor
  · intro h0
    simp only at h0
    simp [encodeOutputLoop, h0]
  · intro hw hok
    simp only at hw hok
    simp [encodeOutputLoop, hw, hok]

/-- Witness for C8: a stalled first step fails; a productive step flushes
5 bytes and the loop continues to a successful exit flushing 2 more. -/
theorem claim_C8_encoding_stall_witness :
    encodeOutputLoop [⟨JxlEncStatus.needMoreOutput, 0, true⟩] =
      SaveResult.stalled ∧
    encodeOutputLoop [⟨JxlEncStatus.needMoreOutput, 5, true⟩,
      ⟨JxlEncStatus.encSuccess, 2, true⟩] = SaveResult.ok [5, 2] := by
  have h1 := claim_C8_encoding_stall ⟨JxlEncStatus.needMoreOutput, 0, true⟩ [] rfl
  have h2 := claim_C8_encoding_stall ⟨JxlEncStatus.needMoreOutput, 5, true⟩
    [⟨JxlEncStatus.encSuccess, 2, true⟩] rfl
  refine ⟨h1.1 rfl, ?_⟩
  have h3 := h2.2 (by norm_num) rfl
  rw [h3]
  simp [encodeOutputLoop]

/-- Processing a run of color-encoding events only updates the retained
ICC profile in the loop state. -/
theorem loadLoop_colorEncoding_pre (o : CmsOracle) (dimsOk : Nat → Nat → Bool)
    (ld : Bool) (pre evs : List JxlDecEvent) (st : LoadState)
    (hpre : ∀ e ∈ pre, e.isColorEncoding = true) :
    ∃ icc, loadLoop o dimsOk ld (pre ++ evs) st =
      loadLoop o dimsOk ld evs { st with icc := icc } := by
  revert hpre
  induction pre generalizing st with
  | nil => exact fun _ => ⟨st.icc, rfl⟩
  | cons e pre ih =>
    intro hpre
    have he := hpre e (List.mem_cons_self e pre)
    have hrest : ∀ x ∈ pre, x.isColorEncoding = true :=
      fun x hx => hpre x (List.mem_cons_of_mem e hx)
    cases e with
    | colorEncoding encoded icc =>
      rw [List.cons_append]
      cases encoded with
      | none =>
        cases icc with
        | none => exact ih st hrest
        | some blob => exact ih { st with icc := some blob } hrest
      | some ce =>
        by_cases hskip : encodedProfileIsSRGB
            (jxlSRGB (decide (st.num_color_channels = 1))) ce = true
        · simp only [loadLoop, hskip, if_pos]
          exact ih st hrest
        · simp only [loadLoop, if_neg hskip]
          cases icc with
          | none => exact ih st hrest
          | some blob => exact ih { st with icc := some blob } hrest
    | basicInfo a b => simp [JxlDecEvent.isColorEncoding] at he
    | needImageOutBuffer a b => simp [JxlDecEvent.isColorEncoding] at he
    | needMoreInput => simp [JxlDecEvent.isColorEncoding] at he
    | decodeError => simp [JxlDecEvent.isColorEncoding] at he
    | fullImage => simp [JxlDecEvent.isColorEncoding] at he
    | otherEvent => simp [JxlDecEvent.isColorEncoding] at he

/-- C5: with the metadata-only flag set (`load_data` false), a decode that
reaches the basic-info event returns success right after populating width,
height and the alpha flag, never allocates a pixel buffer, and returns
before any `NEED_IMAGE_OUT_BUFFER` event is processed (the outcome is the
same for every continuation `rest` of the trace). -/
theorem claim_C5_metadata_only (o : CmsOracle) (dimsOk : Nat → Nat → Bool)
    (pre rest : List JxlDecEvent) (info : JxlBasicInfo)
    (hpre : ∀ e ∈ pre, e.isColorEncoding = true)
    (hdims : dimsOk info.xsize info.ysize = true) :
    (load o dimsOk false
      (pre ++ JxlDecEvent.basicInfo true info :: rest)).status =
        LoadStatus.success ∧
    (load o dimsOk false
      (pre ++ JxlDecEvent.basicInfo true info :: rest)).w = info.xsize ∧
    (load o dimsOk false
      (pre ++ JxlDecEvent.basicInfo true info :: rest)).h = info.ysize ∧
    (load o dimsOk false
      (pre ++ JxlDecEvent.basicInfo true info :: rest)).has_alpha =
        decide (info.alpha_bits > 0) ∧
    (load o dimsOk false
      (pre ++ JxlDecEvent.basicInfo true info :: rest)).data = none ∧
    (load o dimsOk false
      (pre ++ JxlDecEvent.basicInfo true info :: rest)).targetAllocated =
        false ∧
    (load o dimsOk false
      (pre ++ JxlDecEvent.basicInfo true info :: rest)).processedOutBufferEvent =
        false := by
  obtain ⟨icc0, hic⟩ := loadLoop_colorEncoding_pre o dimsOk false pre
    (JxlDecEvent.basicInfo true info :: rest) {} hpre
  unfold load
  rw [hic]
  simp [loadLoop, hdims]

/-- Witness for C5 on a concrete one-event trace. -/
theorem claim_C5_metadata_only_witness :
    (load trivialCms (fun _ _ => true) false
      [JxlDecEvent.basicInfo true ⟨2, 3, 8, 3⟩]).status = LoadStatus.success ∧
    (load trivialCms (fun _ _ => true) false
      [JxlDecEvent.basicInfo true ⟨2, 3, 8, 3⟩]).w = 2 ∧
    (load trivialCms (fun _ _ => true) false
      [JxlDecEvent.basicInfo true ⟨2, 3, 8, 3⟩]).h = 3 ∧
    (load trivialCms (fun _ _ => true) false
      [JxlDecEvent.basicInfo true ⟨2, 3, 8, 3⟩]).has_alpha = true ∧
    (load trivialCms (fun _ _ => true) false
      [JxlDecEvent.basicInfo true ⟨2, 3, 8, 3⟩]).data = none ∧
    (load trivialCms (fun _ _ => true) false
      [JxlDecEvent.basicInfo true ⟨2, 3, 8, 3⟩]).targetAllocated = false ∧
    (load trivialCms (fun _ _ => true) false
      [JxlDecEvent.basicInfo true ⟨2, 3, 8, 3⟩]).processedOutBufferEvent =
        false := by
  have h := claim_C5_metadata_only trivialCms (fun _ _ => true) [] []
    ⟨2, 3, 8, 3⟩ (by simp) rfl
  simpa using h

/-- C6: when the reported dimensions fail the host's `IMAGE_DIMENSIONS_OK`
check, decode fails with the bad-image status and no pixel buffer has been
allocated. -/
theorem claim_C6_dimension_check (o : CmsOracle) (dimsOk : Nat → Nat → Bool)
    (load_data : Bool) (pre rest : List JxlDecEvent) (info : JxlBasicInfo)
    (hpre : ∀ e ∈ pre, e.isColorEncoding = true)
    (hdims : dimsOk info.xsize info.ysize = false) :
    (load o dimsOk load_data
      (pre ++ JxlDecEvent.basicInfo true info :: rest)).status =
        LoadStatus.badimage ∧
    (load o dimsOk load_data
      (pre ++ JxlDecEvent.basicInfo true info :: rest)).data = none ∧
    (load o dimsOk load_data
      (pre ++ JxlDecEvent.basicInfo true info :: rest)).targetAllocated =
        false ∧
    (load o dimsOk load_data
      (pre ++ JxlDecEvent.basicInfo true info :: rest)).processedOutBufferEvent =
        false := by
  obtain ⟨icc0, hic⟩ := loadLoop_colorEncoding_pre o dimsOk load_data pre
    (JxlDecEvent.basicInfo true info :: rest) {} hpre
  unfold load
  rw [hic]
  simp [loadLoop, hdims, failOutcome]

/-- Witness for C6 on a concrete trace whose dimensions the host rejects. -/
theorem claim_C6_dimension_check_witness :
    (load trivialCms (fun _ _ => false) true
      [JxlDecEvent.basicInfo true ⟨70000, 70000, 0, 3⟩]).status =
        LoadStatus.badimage ∧
    (load trivialCms (fun _ _ => false) true
      [JxlDecEvent.basicInfo true ⟨70000, 70000, 0, 3⟩]).data = none ∧
    (load trivialCms (fun _ _ => false) true
      [JxlDecEvent.basicInfo true ⟨70000, 70000, 0, 3⟩]).targetAllocated =
        false ∧
    (load trivialCms (fun _ _ => false) true
      [JxlDecEvent.basicInfo true ⟨70000, 70000, 0, 3⟩]).processedOutBufferEvent =
        false := by
  have h := claim_C6_dimension_check trivialCms (fun _ _ => false) true [] []
    ⟨70000, 70000, 0, 3⟩ (by simp) rfl
  simpa using h

/-- C7: when the color transform fails (any step of `convert_to_srgb`
returning nonzero), the decode does not abort: it falls back to the plain
channel reordering and still returns success, producing the canonical ARGB
buffer from the uncorrected pixels. -/
theorem claim_C7_color_transform_fallback (o : CmsOracle)
    (dimsOk : Nat → Nat → Bool) (info : JxlBasicInfo) (blob : List Nat)
    (contents : Nat → Nat)
    (hdims : dimsOk info.xsize info.ysize = true)
    (hfail : convert_to_srgb o blob contents
        (decNumChannels info.num_color_channels info.alpha_bits) = none) :
    (load o dimsOk true
      [JxlDecEvent.basicInfo true info,
       JxlDecEvent.colorEncoding none (some blob),
       JxlDecEvent.needImageOutBuffer
         (some (info.xsize * info.ysize *
           decNumChannels info.num_color_channels info.alpha_bits)) contents,
       JxlDecEvent.fullImage]).status = LoadStatus.success ∧
    (load o dimsOk true
      [JxlDecEvent.basicInfo true info,
       JxlDecEvent.colorEncoding none (some blob),
       JxlDecEvent.needImageOutBuffer
         (some (info.xsize * info.ysize *
           decNumChannels info.num_color_channels info.alpha_bits)) contents,
       JxlDecEvent.fullImage]).data =
      some (fun i =>
        decodePixel (decNumChannels info.num_color_channels info.alpha_bits)
          contents i) := by
  unfold load
  simp [loadLoop, hdims, loadFinish, hfail]

/-- Witness for C7: a transform-construction failure on a 1x1 RGB image
falls back to plain reordering and succeeds. -/
theorem claim_C7_color_transform_fallback_witness :
    (load failingCms (fun _ _ => true) true
      [JxlDecEvent.basicInfo true ⟨1, 1, 0, 3⟩,
       JxlDecEvent.colorEncoding none (some [0]),
       JxlDecEvent.needImageOutBuffer (some (1 * 1 * decNumChannels 3 0))
         (fun j => j),
       JxlDecEvent.fullImage]).status = LoadStatus.success ∧
    (load failingCms (fun _ _ => true) true
      [JxlDecEvent.basicInfo true ⟨1, 1, 0, 3⟩,
       JxlDecEvent.colorEncoding none (some [0]),
       JxlDecEvent.needImageOutBuffer (some (1 * 1 * decNumChannels 3 0))
         (fun j => j),
       JxlDecEvent.fullImage]).data =
      some (fun i => decodePixel (decNumChannels 3 0) (fun j => j) i) :=
  claim_C7_color_transform_fallback failingCms (fun _ _ => true)
    ⟨1, 1, 0, 3⟩ [0] (fun j => j) rfl rfl

end ImlibJxl
